import Mathlib

/-!
Shallow embedding of the schedy thermostat actor and statistics modules
(hass_apps/schedy/actor/thermostat.py and hass_apps/schedy/stats.py).
Python floats are modelled as rationals and fallible operations return
Option; configuration fields carry the types guaranteed by the validation
schema (CONFIG_SCHEMA) of the source.
-/

/-- A temperature value: either the OFF sentinel or a numeric value.
Mirrors class Temp, whose value field holds a float or the Off sentinel. -/
inductive Temp
  | off
  | num (v : ℚ)
  deriving DecidableEq

namespace Temp

/-- The property Temp.is_off. -/
def is_off : Temp → Bool
  | .off => true
  | .num _ => false

/-- Addition of two Temp operands, from the method add of Temp (the source
also promotes raw numerics to Temp first): OFF absorbs on either side,
otherwise the values are added. -/
def add : Temp → Temp → Temp
  | .off, _ => .off
  | _, .off => .off
  | .num a, .num b => .num (a + b)

/-- Negation, from the method neg of Temp: the Off sentinel negates to
itself, a numeric value to its negation. -/
def neg : Temp → Temp
  | .off => .off
  | .num a => .num (-a)

/-- Subtraction, defined in the source as addition of the negation. -/
def sub (a b : Temp) : Temp := a.add b.neg

/-- Equality test, from the method eq of Temp: same variant and, for two
numerics, equal values. -/
def beq : Temp → Temp → Bool
  | .off, .off => true
  | .num a, .num b => decide (a = b)
  | _, _ => false

/-- The less-than test of Temp on two Temp operands. The source returns
False when a numeric is compared to OFF, True when OFF is compared to a
numeric, and otherwise evaluates the comparison of the two inner values:
for two numerics that is the float comparison, while for OFF and OFF the
comparison of the two Off sentinels (which define no ordering) raises a
TypeError, modelled here as none. -/
def lt : Temp → Temp → Option Bool
  | .num _, .off => some false
  | .off, .num _ => some true
  | .num a, .num b => some (decide (a < b))
  | .off, .off => none

/-- The greater-than test as derived by functools.total_ordering from the
less-than and equality tests: not (a < b) and a != b. -/
def gt (a b : Temp) : Option Bool :=
  match lt a b with
  | none => none
  | some l => some (!l && !(beq a b))

/-- Conversion to a float, from the method float of Temp: the numeric
value, failing on OFF (ValueError in the source). -/
def toFloat : Temp → Option ℚ
  | .num a => some a
  | .off => none

end Temp

/-- A raw attribute value as delivered with a state report: absent/None,
a string, or a number. -/
inductive PyVal
  | vNone
  | vStr (s : String)
  | vNum (q : ℚ)
  deriving DecidableEq

/-- All whitespace removed, as the source does by splitting the string on
whitespace and joining the parts. -/
def stripWs (s : String) : String :=
  ⟨s.toList.filter (fun c => !c.isWhitespace)⟩

/-- The natural number read from a digit list (most significant first). -/
def natOfDigits (cs : List Char) : ℕ :=
  cs.foldl (fun n c => 10 * n + (c.toNat - 48)) 0

/-- Models the float() conversion of the source on an unsigned plain
decimal literal: an integer part and an optional fractional part separated
by a dot, at least one digit overall. -/
def parseFloatCore (cs : List Char) : Option ℚ :=
  let ip := cs.takeWhile (fun c => c ≠ '.')
  let rest := cs.dropWhile (fun c => c ≠ '.')
  let fp := rest.drop 1
  if (ip ++ fp).all Char.isDigit && !fp.contains '.' && !(ip.isEmpty && fp.isEmpty)
  then some ((natOfDigits ip : ℚ) + (natOfDigits fp : ℚ) / (10 : ℚ) ^ fp.length)
  else none

/-- Models the float() conversion of the source on a string, with an
optional leading sign. -/
def parseFloat (s : String) : Option ℚ :=
  match s.toList with
  | '-' :: r => (parseFloatCore r).map (fun q => -q)
  | '+' :: r => parseFloatCore r
  | r => parseFloatCore r

namespace Temp

/-- Temp.parse_temp on a raw value: a string has all its whitespace removed
and yields OFF when it uppercases to "OFF", otherwise it must read as a
float; a number converts directly; None fails (float(None) raises). -/
def parse_temp : PyVal → Option Temp
  | .vNone => none
  | .vNum q => some (.num q)
  | .vStr s =>
    let s := stripWs s
    if s.toUpper = "OFF" then some .off
    else (parseFloat s).map Temp.num

end Temp

/-- The validated per-thermostat configuration (CONFIG_SCHEMA in the
source).  The schema coerces delta, min_temp and max_temp to Temp values
and forbids OFF for them, so delta and the optional bounds are numeric;
off_temp may be numeric or OFF; current_temp_state_attr may be None. -/
structure ThermoConfig where
  delta : ℚ
  min_temp : Option ℚ
  max_temp : Option ℚ
  off_temp : Temp
  supports_opmodes : Bool
  opmode_on : String
  opmode_off : String
  opmode_state_attr : String
  target_temp_state_attr : String
  current_temp_state_attr : Option String

/-- The mutable state of a ThermostatActor that notify_state_changed may
touch: the stored current (measured) temperature. -/
structure ThermState where
  current_temp : Option Temp
  deriving DecidableEq

/-- The dict of reported attributes; the source reads it with get, which
yields None for a missing key. -/
def lookupAttr (attrs : List (String × PyVal)) (k : String) : PyVal :=
  (attrs.lookup k).getD PyVal.vNone

/-- The comparison of a raw attribute value against a configured string,
as the source performs with the == operator: only a string can equal a
string, anything else (a number or None) compares unequal. -/
def pyEqStr : PyVal → String → Bool
  | .vStr s, t => s == t
  | _, _ => false

namespace ThermostatActor

/-- The max_temp half of the clamping step of filter_set_value: value is
replaced by the bound when the greater-than test of Temp says it exceeds
it.  The bound is numeric by the schema. -/
def maxClamp (max_temp : Option ℚ) (v : Temp) : Temp :=
  match max_temp with
  | some m => if Temp.gt v (Temp.num m) = some true then Temp.num m else v
  | none => v

/-- ThermostatActor.filter_set_value: an OFF desired value is replaced by
the configured off_temp; a numeric value then gets delta added and is
clamped (first branch: below min_temp pulls up to it; else branch: above
max_temp pulls down to it); a value that is still OFF on a device without
operation mode support suppresses the command (None, with warnings
logged); otherwise the value is returned. -/
def filter_set_value (cfg : ThermoConfig) (value : Temp) : Option Temp :=
  let value := if value.is_off then cfg.off_temp else value
  match value with
  | Temp.num x =>
    let v := Temp.add (Temp.num x) (Temp.num cfg.delta)
    let v :=
      match cfg.min_temp with
      | some m =>
        if Temp.lt v (Temp.num m) = some true then Temp.num m
        else maxClamp cfg.max_temp v
      | none => maxClamp cfg.max_temp v
    some v
  | Temp.off =>
    if cfg.supports_opmodes then some Temp.off else none

/-- ThermostatActor.notify_state_changed, returning the parsed target
temperature (None on an ignored report) together with the actor state
after the report.  When operation modes are supported, the configured
off mode makes the target OFF and an attribute equal to neither mode name
aborts the report before any state is touched; otherwise the target
attribute is parsed, a parse failure aborting before the current
temperature is handled; finally the current temperature attribute, when
configured and non-empty, is parsed and stored when it parses and differs
from the stored one. -/
def notify_state_changed (cfg : ThermoConfig) (st : ThermState)
    (attrs : List (String × PyVal)) : Option Temp × ThermState :=
  let step : Option (Option Temp) :=
    if cfg.supports_opmodes then
      let opmode := lookupAttr attrs cfg.opmode_state_attr
      if pyEqStr opmode cfg.opmode_off then some (some Temp.off)
      else if !(pyEqStr opmode cfg.opmode_on) then none
      else some none
    else some none
  match step with
  | none => (none, st)
  | some targetPre =>
    let targetParsed : Option Temp :=
      match targetPre with
      | some t => some t
      | none => Temp.parse_temp (lookupAttr attrs cfg.target_temp_state_attr)
    match targetParsed with
    | none => (none, st)
    | some target =>
      let st1 :=
        match cfg.current_temp_state_attr with
        | none => st
        | some attr =>
          if attr.isEmpty then st
          else
            match Temp.parse_temp (lookupAttr attrs attr) with
            | none => st
            | some ct =>
              if st.current_temp = some ct then st
              else { st with current_temp := some ct }
      (some target, st1)

end ThermostatActor

/-- Modelled from the words of the specification, for comparison with
filter_set_value: the four-step pipeline of computeDeviceCommand. Step 1
substitutes the off-substitute for an OFF desired value; step 2 adds the
delta offset to a numeric value and clamps it to the nearest configured
bound; step 3 suppresses a still-OFF command on a device without a
distinct off operation mode; step 4 returns the resulting value. -/
def computeDeviceCommand (cfg : ThermoConfig) (desired : Temp) : Option Temp :=
  let v := if desired.is_off then cfg.off_temp else desired
  match v with
  | Temp.num x =>
    let y := x + cfg.delta
    let y :=
      match cfg.min_temp with
      | some m =>
        if y < m then m
        else
          match cfg.max_temp with
          | some hi => if hi < y then hi else y
          | none => y
      | none =>
        match cfg.max_temp with
        | some hi => if hi < y then hi else y
        | none => y
    some (Temp.num y)
  | Temp.off =>
    if cfg.supports_opmodes then some Temp.off else none

/-- stats.WeightedValue: a measured value paired with a weight. -/
structure WeightedValue where
  value : ℚ
  weight : ℚ
  deriving DecidableEq

/-- The per-thermostat data the temp_delta collection reads: the entity
id, whether the actor is initialized, the stored measured temperature and
the stored device-reported target value (either may be missing). -/
structure Thermostat where
  entity_id : String
  is_initialized : Bool
  current_temp : Option Temp
  current_value : Option Temp
  deriving DecidableEq

/-- The validated configuration of the temp_delta statistical parameter:
an optional off_value and per-entity factor and weight overrides. -/
structure TDConfig where
  off_value : Option ℚ
  factors : List (String × ℚ)
  weights : List (String × ℚ)

/-- A dict read with get and a default, as the source does for the factor
and weight overrides. -/
def lookupD (l : List (String × ℚ)) (k : String) (d : ℚ) : ℚ :=
  (l.lookup k).getD d

namespace TempDeltaParameter

/-- The off test of the collection loop, in the order of the source: the
measured temperature is missing, or the target value is missing, or the
measured temperature is OFF, or the target value is OFF. -/
def thermOffCase (t : Thermostat) : Bool :=
  t.current_temp.isNone || t.current_value.isNone ||
    (t.current_temp = some Temp.off) || (t.current_value = some Temp.off)

/-- The body of the collection loop of TempDeltaParameter.collect for one
thermostat: none when the entry is skipped.  A zero weight skips the
thermostat; the off case substitutes the configured off_value or skips
when none is configured; otherwise the difference target minus measured
is taken as a float and scaled by the configured factor.  The two final
fallback branches are unreachable, being excluded by the off test. -/
def collectOne (cfg : TDConfig) (therm : Thermostat) : Option WeightedValue :=
  let weight := lookupD cfg.weights therm.entity_id 1
  if weight = 0 then none
  else if thermOffCase therm then
    match cfg.off_value with
    | none => none
    | some ov => some ⟨ov, weight⟩
  else
    match therm.current_value, therm.current_temp with
    | some cv, some ct =>
      match (Temp.sub cv ct).toFloat with
      | some d => some ⟨d * lookupD cfg.factors therm.entity_id 1, weight⟩
      | none => none
    | _, _ => none

/-- TempDeltaParameter.collect over the flattened list of actors of all
rooms: only initialized actors are considered, and the loop body decides
for each whether it contributes an entry. -/
def collect (cfg : TDConfig) (devices : List Thermostat) : List WeightedValue :=
  (devices.filter (fun t => t.is_initialized)).filterMap (collectOne cfg)

end TempDeltaParameter

/-- A value passed to the min/avg/max calculation: a bare numeric or a
weighted value. -/
inductive StatVal
  | raw (v : ℚ)
  | wv (w : WeightedValue)
  deriving DecidableEq

namespace MinAvgMaxParameter

/-- The unweighted numeric values gathered by the loop of
calculate_min_avg_max. -/
def numericValues (values : List StatVal) : List ℚ :=
  values.map (fun x => match x with | .raw v => v | .wv w => w.value)

/-- The two running sums of the loop of calculate_min_avg_max: the
weighted sum and the weight sum, a bare numeric counting as weight 1. -/
def calcSums (values : List StatVal) : ℚ × ℚ :=
  values.foldl
    (fun acc x =>
      match x with
      | .wv w => (acc.1 + w.value * w.weight, acc.2 + w.weight)
      | .raw v => (acc.1 + v, acc.2 + 1))
    (0, 0)

/-- The minimum of a value list as the min() builtin computes it on a
non-empty list (the empty case is never evaluated in the source). -/
def listMin : List ℚ → ℚ
  | [] => 0
  | x :: xs => xs.foldl min x

/-- The maximum of a value list as the max() builtin computes it on a
non-empty list (the empty case is never evaluated in the source). -/
def listMax : List ℚ → ℚ
  | [] => 0
  | x :: xs => xs.foldl max x

/-- MinAvgMaxParameter.calculate_min_avg_max as the triple (min, avg,
max): an empty input yields (0, 0, 0) with no division; a non-empty input
whose weight sum is zero makes the average a float division by zero,
which raises ZeroDivisionError in the source, modelled as none; otherwise
the minimum, the weighted average and the maximum. -/
def calculate_min_avg_max (values : List StatVal) : Option (ℚ × ℚ × ℚ) :=
  let nv := numericValues values
  let s := calcSums values
  if values.isEmpty then some (0, 0, 0)
  else if s.2 = 0 then none
  else some (listMin nv, s.1 / s.2, listMax nv)

end MinAvgMaxParameter

/-- The state of a StatisticalParameter that the update machinery
touches: the pending timer handle and the last published attribute set. -/
structure StatsState (α : Type) where
  update_state_timer : Option Unit
  last_state : Option α
  deriving DecidableEq

namespace StatisticalParameter

/-- StatisticalParameter.update_stats: when a timer is already pending
the call is a no-op, otherwise a timer is scheduled.  The boolean reports
whether a timer was scheduled by this call. -/
def update_stats {α : Type} (s : StatsState α) : StatsState α × Bool :=
  match s.update_state_timer with
  | some _ => (s, false)
  | none => ({ s with update_state_timer := some () }, true)

/-- The private state update method of StatisticalParameter, run when the
timer fires: the timer handle is cleared first, the entries are
generated, and when they equal the last published state nothing is sent;
otherwise the state is published and remembered.  The boolean reports
whether a publish (set_state) happened. -/
def do_update_state {α : Type} [DecidableEq α] (gen : α) (s : StatsState α) :
    StatsState α × Bool :=
  let s1 : StatsState α := { s with update_state_timer := none }
  let attrs := gen
  if some attrs = s1.last_state then (s1, false)
  else ({ s1 with last_state := some attrs }, true)

/-- An event hitting a statistical parameter: an update request or the
firing of the scheduled timer. -/
inductive StatsEvent
  | request
  | fire

/-- The result of running a sequence of events: the final state, the
number of entry generations and the number of publishes. -/
structure StatsRun (α : Type) where
  state : StatsState α
  gens : ℕ
  pubs : ℕ

/-- Runs a sequence of events against a parameter whose generation
yields gen.  A fire event does nothing when no timer is pending (the
scheduler only fires scheduled timers); a pending timer fires the state
update, which counts one generation and possibly one publish. -/
def runStats {α : Type} [DecidableEq α] (gen : α) :
    List StatsEvent → StatsState α → StatsRun α
  | [], s => ⟨s, 0, 0⟩
  | .request :: es, s => runStats gen es (update_stats s).1
  | .fire :: es, s =>
    match s.update_state_timer with
    | none => runStats gen es s
    | some _ =>
      let p := do_update_state gen s
      let r := runStats gen es p.1
      ⟨r.state, r.gens + 1, r.pubs + (if p.2 then 1 else 0)⟩

end StatisticalParameter

/-- Modelled from the words of the specification, for comparison with the
sums of calculate_min_avg_max: the numerator of the weighted average, the
sum of value times weight with a bare numeric counting as weight 1. -/
def specNumerator (values : List StatVal) : ℚ :=
  (values.map (fun x =>
    match x with | .raw v => v | .wv w => w.value * w.weight)).sum

/-- Modelled from the words of the specification, for comparison with the
sums of calculate_min_avg_max: the denominator of the weighted average,
the sum of the weights with a bare numeric counting as weight 1. -/
def specDenominator (values : List StatVal) : ℚ :=
  (values.map (fun x =>
    match x with | .raw _ => 1 | .wv w => w.weight)).sum

/-- A thermostat configuration with delta 0.5, bounds 20 and 23 and the
default mode names and attribute names. -/
def cfgEx1 : ThermoConfig :=
  ⟨1/2, some 20, some 23, Temp.off, true, "heat", "off", "operation_mode",
   "temperature", some "current_temperature"⟩

/-- A thermostat configuration with delta 0 and only a max bound of 23. -/
def cfgEx2 : ThermoConfig :=
  ⟨0, none, some 23, Temp.off, true, "heat", "off", "operation_mode",
   "temperature", some "current_temperature"⟩

/-- A thermostat configuration without operation mode support and with the
default OFF off_temp. -/
def cfgEx3 : ThermoConfig :=
  ⟨0, none, none, Temp.off, false, "heat", "off", "operation_mode",
   "temperature", some "current_temperature"⟩

/-- An initialized thermostat measuring 20 with a reported target of 22. -/
def thermEx1 : Thermostat :=
  ⟨"climate.t1", true, some (Temp.num 20), some (Temp.num 22)⟩

/-- A temp_delta configuration with off_value 0 and no overrides. -/
def tdCfgEx1 : TDConfig := ⟨some 0, [], []⟩

/-- A temp_delta configuration with a factor and a weight override for
the thermostat thermEx1. -/
def tdCfgEx2 : TDConfig := ⟨some 0, [("climate.t1", 2)], [("climate.t1", 3)]⟩

/-- An initialized thermostat measuring 20 whose reported target value is
OFF (only one of the two fields is OFF). -/
def thermEx2 : Thermostat :=
  ⟨"climate.t2", true, some (Temp.num 20), some Temp.off⟩

/-- A temp_delta configuration with off_value 7 and no overrides. -/
def tdCfgEx3 : TDConfig := ⟨some 7, [], []⟩

/-- A temp_delta configuration without an off_value and no overrides. -/
def tdCfgEx4 : TDConfig := ⟨none, [], []⟩

/-- Helper: the derived greater-than test on two numerics decides the
reversed strict comparison. -/
theorem Temp.gt_num_num (a b : ℚ) :
    Temp.gt (Temp.num a) (Temp.num b) = some (decide (b < a)) := by
  simp only [Temp.gt, Temp.lt, Temp.beq, Option.some.injEq]
  rcases lt_trichotomy a b with h | h | h
  · simp [h, h.ne, h.asymm]
  · simp [h, lt_irrefl]
  · simp [h, h.asymm, h.ne.symm]

/-- Claim C9: addition of Temperature Values is the float sum on two
numerics and OFF absorbs on both sides; parsing a numeric yields the
numeric Temperature Value. -/
theorem temp_add_props : ∀ a b : ℚ,
    Temp.parse_temp (PyVal.vNum a) = some (Temp.num a) ∧
    Temp.add (Temp.num a) (Temp.num b) = Temp.num (a + b) ∧
    Temp.add Temp.off (Temp.num a) = Temp.off ∧
    Temp.add (Temp.num a) Temp.off = Temp.off :=
  fun _ _ => ⟨rfl, rfl, rfl, rfl⟩

/-- Claim C3 (counterexample): the less-than comparison of OFF with OFF
does not return false; it fails (TypeError in the source). -/
theorem temp_lt_off_off_counterexample :
    ¬ (Temp.lt Temp.off Temp.off = some false) := by decide

/-- Claim C3 (amended): OFF is strictly below every numeric, no numeric
is below OFF, numerics compare by value, and comparing OFF with OFF
raises (returns no boolean) instead of returning false. -/
theorem temp_lt_amended : ∀ t u : ℚ,
    Temp.lt Temp.off (Temp.num t) = some true ∧
    Temp.lt (Temp.num t) Temp.off = some false ∧
    Temp.lt (Temp.num t) (Temp.num u) = some (decide (t < u)) ∧
    Temp.lt Temp.off Temp.off = none :=
  fun _ _ => ⟨rfl, rfl, rfl, rfl⟩

/-- Claim C1 (counterexample): for a thermostat measuring 20 with target
22 and default factor and weight, collect yields value 2, not
(measured minus desired) times factor, which is -2. -/
theorem td_collect_sign_counterexample :
    TempDeltaParameter.collect tdCfgEx1 [thermEx1] =
      [⟨2, 1⟩] ∧ ¬ ((2 : ℚ) = (20 - 22) * 1) := by
  constructor
  · simp [TempDeltaParameter.collect, TempDeltaParameter.collectOne,
      TempDeltaParameter.thermOffCase, thermEx1, tdCfgEx1, lookupD,
      Temp.sub, Temp.neg, Temp.add, Temp.toFloat]
    norm_num
  · norm_num

/-- Claim C1 (amended): for an initialized device with nonzero weight
whose measured and target values are both present and numeric, collect
yields the entry ((target minus measured) times factor, weight). -/
theorem td_collect_delta_amended :
    ∀ (cfg : TDConfig) (therm : Thermostat) (ct cv : ℚ),
      lookupD cfg.weights therm.entity_id 1 ≠ 0 →
      therm.current_temp = some (Temp.num ct) →
      therm.current_value = some (Temp.num cv) →
      TempDeltaParameter.collectOne cfg therm =
        some ⟨(cv - ct) * lookupD cfg.factors therm.entity_id 1,
              lookupD cfg.weights therm.entity_id 1⟩ ∧
      (therm.is_initialized = true → ∀ devs : List Thermostat, therm ∈ devs →
        (⟨(cv - ct) * lookupD cfg.factors therm.entity_id 1,
          lookupD cfg.weights therm.entity_id 1⟩ : WeightedValue)
          ∈ TempDeltaParameter.collect cfg devs) := by
  intro cfg therm ct cv hw ht hv
  have hone : TempDeltaParameter.collectOne cfg therm =
      some ⟨(cv - ct) * lookupD cfg.factors therm.entity_id 1,
            lookupD cfg.weights therm.entity_id 1⟩ := by
    unfold TempDeltaParameter.collectOne
    simp [hw, TempDeltaParameter.thermOffCase, ht, hv, Temp.sub, Temp.neg,
      Temp.add, Temp.toFloat, sub_eq_add_neg]
  refine ⟨hone, fun hi devs hmem => ?_⟩
  exact List.mem_filterMap.mpr
    ⟨therm, List.mem_filter.mpr ⟨hmem, hi⟩, hone⟩

theorem td_collect_delta_amended_witness :
    TempDeltaParameter.collectOne tdCfgEx2 thermEx1 =
      some ⟨((22 : ℚ) - 20) * lookupD tdCfgEx2.factors thermEx1.entity_id 1,
            lookupD tdCfgEx2.weights thermEx1.entity_id 1⟩ ∧
    (⟨((22 : ℚ) - 20) * lookupD tdCfgEx2.factors thermEx1.entity_id 1,
      lookupD tdCfgEx2.weights thermEx1.entity_id 1⟩ : WeightedValue)
      ∈ TempDeltaParameter.collect tdCfgEx2 [thermEx1] :=
  ⟨(td_collect_delta_amended tdCfgEx2 thermEx1 20 22 (by norm_num [tdCfgEx2, thermEx1, lookupD]) rfl rfl).1,
   (td_collect_delta_amended tdCfgEx2 thermEx1 20 22 (by norm_num [tdCfgEx2, thermEx1, lookupD]) rfl rfl).2
     rfl [thermEx1] (List.mem_singleton_self _)⟩

/-- Claim C2 (counterexample): a thermostat whose measured temperature is
numeric (20) but whose target value is OFF is treated as the off case:
with off_value 7 configured it contributes the substitute entry, and with
no off_value it is excluded; it does not fall through to numeric
handling. -/
theorem td_offcase_counterexample :
    TempDeltaParameter.thermOffCase thermEx2 = true ∧
    thermEx2.current_temp = some (Temp.num 20) ∧
    TempDeltaParameter.collectOne tdCfgEx3 thermEx2 = some ⟨7, 1⟩ ∧
    TempDeltaParameter.collectOne tdCfgEx4 thermEx2 = none := by
  refine ⟨rfl, rfl, ?_, rfl⟩
  simp [TempDeltaParameter.collectOne, TempDeltaParameter.thermOffCase,
    thermEx2, tdCfgEx3, lookupD]

/-- Claim C2 (amended): the off case of collect holds exactly when the
measured value is missing, the target value is missing, the measured
value is OFF or the target value is OFF; in the off case a device with
nonzero weight contributes the configured off_value (with its weight)
when one is configured, and is excluded otherwise. -/
theorem td_offcase_amended :
    ∀ (cfg : TDConfig) (therm : Thermostat),
      (TempDeltaParameter.thermOffCase therm = true ↔
        therm.current_temp = none ∨ therm.current_value = none ∨
        therm.current_temp = some Temp.off ∨
        therm.current_value = some Temp.off) ∧
      (lookupD cfg.weights therm.entity_id 1 ≠ 0 →
       TempDeltaParameter.thermOffCase therm = true →
        TempDeltaParameter.collectOne cfg therm =
          cfg.off_value.map
            (fun ov => ⟨ov, lookupD cfg.weights therm.entity_id 1⟩)) := by
  intro cfg therm
  constructor
  · simp [TempDeltaParameter.thermOffCase, Option.isNone_iff_eq_none, or_assoc]
  · intro hw hoff
    unfold TempDeltaParameter.collectOne
    simp only [hw, if_false, hoff, if_true]
    cases cfg.off_value <;> simp

theorem td_offcase_amended_witness :
    (TempDeltaParameter.thermOffCase thermEx2 = true ↔
      thermEx2.current_temp = none ∨ thermEx2.current_value = none ∨
      thermEx2.current_temp = some Temp.off ∨
      thermEx2.current_value = some Temp.off) ∧
    TempDeltaParameter.collectOne tdCfgEx3 thermEx2 =
      tdCfgEx3.off_value.map
        (fun ov => ⟨ov, lookupD tdCfgEx3.weights thermEx2.entity_id 1⟩) :=
  ⟨(td_offcase_amended tdCfgEx3 thermEx2).1,
   (td_offcase_amended tdCfgEx3 thermEx2).2 (by norm_num [tdCfgEx3, lookupD]) rfl⟩

/-- Claim C4: filter_set_value agrees everywhere with the four-step
pipeline computeDeviceCommand taken from the specification, and on the
concrete examples: desired 22 with delta 0.5 and bounds 20 and 23 gives
22.5; desired 25 with delta 0 and max 23 clamps to 23; a desired OFF on a
device without operation mode support is suppressed. -/
theorem filter_set_value_pipeline :
    (∀ (cfg : ThermoConfig) (value : Temp),
      ThermostatActor.filter_set_value cfg value = computeDeviceCommand cfg value) ∧
    ThermostatActor.filter_set_value cfgEx1 (Temp.num 22) = some (Temp.num (45/2)) ∧
    ThermostatActor.filter_set_value cfgEx2 (Temp.num 25) = some (Temp.num 23) ∧
    ThermostatActor.filter_set_value cfgEx3 Temp.off = none := by
  refine ⟨?_, ?_, ?_, rfl⟩
  · intro cfg value
    unfold ThermostatActor.filter_set_value computeDeviceCommand
    cases hv : (if value.is_off then cfg.off_temp else value) with
    | off => rfl
    | num x =>
      simp only [Temp.add, Option.some.injEq]
      cases hm : cfg.min_temp with
      | some m =>
        simp only [Temp.lt, Option.some.injEq, decide_eq_true_eq]
        by_cases h1 : x + cfg.delta < m
        · simp [h1]
        · simp only [h1, if_false]
          cases hM : cfg.max_temp with
          | some M =>
            simp only [ThermostatActor.maxClamp, Temp.gt_num_num,
              Option.some.injEq, decide_eq_true_eq]
            by_cases h2 : M < x + cfg.delta <;> simp [h2]
          | none => simp [ThermostatActor.maxClamp]
      | none =>
        cases hM : cfg.max_temp with
        | some M =>
          simp only [ThermostatActor.maxClamp, Temp.gt_num_num,
            Option.some.injEq, decide_eq_true_eq]
          by_cases h2 : M < x + cfg.delta <;> simp [h2]
        | none => simp [ThermostatActor.maxClamp]
  · show ThermostatActor.filter_set_value cfgEx1 (Temp.num 22) = some (Temp.num (45/2))
    simp [ThermostatActor.filter_set_value, cfgEx1, Temp.is_off, Temp.add,
      ThermostatActor.maxClamp, Temp.lt, Temp.gt_num_num]
    norm_num
  · simp [ThermostatActor.filter_set_value, cfgEx2, Temp.is_off, Temp.add,
      ThermostatActor.maxClamp, Temp.lt, Temp.gt_num_num]
    norm_num

/-- Claim C5: with operation mode support enabled, a report whose
operation mode attribute equals the configured off mode yields the target
OFF whatever the other attributes hold; a report whose operation mode
attribute equals neither the off nor the on mode name yields no target
and leaves the stored state untouched. -/
theorem notify_opmode_spec :
    ∀ (cfg : ThermoConfig) (st : ThermState) (attrs : List (String × PyVal)),
      cfg.supports_opmodes = true →
      (pyEqStr (lookupAttr attrs cfg.opmode_state_attr) cfg.opmode_off = true →
        (ThermostatActor.notify_state_changed cfg st attrs).1 = some Temp.off) ∧
      (pyEqStr (lookupAttr attrs cfg.opmode_state_attr) cfg.opmode_off = false →
       pyEqStr (lookupAttr attrs cfg.opmode_state_attr) cfg.opmode_on = false →
        ThermostatActor.notify_state_changed cfg st attrs = (none, st)) := by
  intro cfg st attrs hs
  constructor
  · intro h
    unfold ThermostatActor.notify_state_changed
    simp only [hs, if_true, h]
  · intro h1 h2
    unfold ThermostatActor.notify_state_changed
    simp [hs, h1, h2]

theorem notify_opmode_spec_witness :
    (ThermostatActor.notify_state_changed cfgEx1 ⟨none⟩
      [("operation_mode", PyVal.vStr "off"),
       ("temperature", PyVal.vNum 5)]).1 = some Temp.off ∧
    ThermostatActor.notify_state_changed cfgEx1 ⟨none⟩
      [("operation_mode", PyVal.vStr "auto")] = (none, ⟨none⟩) :=
  ⟨(notify_opmode_spec cfgEx1 ⟨none⟩ _ rfl).1 rfl,
   (notify_opmode_spec cfgEx1 ⟨none⟩ _ rfl).2 rfl rfl⟩

/-- Claim C6: from an idle state, a first update request schedules the
single timer, a second request within the window is a no-op, the trace
request-request-fire performs exactly one entry generation and at most
one publish, and after the timer fired the handle is cleared so a further
request schedules again. -/
theorem update_stats_debounce :
    ∀ {α : Type} [DecidableEq α] (gen : α) (s : StatsState α),
      s.update_state_timer = none →
      (StatisticalParameter.update_stats s).2 = true ∧
      StatisticalParameter.update_stats (StatisticalParameter.update_stats s).1
        = ((StatisticalParameter.update_stats s).1, false) ∧
      (StatisticalParameter.runStats gen
        [.request, .request, .fire] s).gens = 1 ∧
      (StatisticalParameter.runStats gen
        [.request, .request, .fire] s).pubs ≤ 1 ∧
      (StatisticalParameter.runStats gen
        [.request, .request, .fire] s).state.update_state_timer = none ∧
      (StatisticalParameter.update_stats
        (StatisticalParameter.runStats gen
          [.request, .request, .fire] s).state).2 = true := by
  intro α _ gen s h
  obtain ⟨t, l⟩ := s
  simp only at h
  subst h
  unfold StatisticalParameter.runStats StatisticalParameter.runStats
    StatisticalParameter.runStats StatisticalParameter.runStats
  simp only [StatisticalParameter.update_stats, StatisticalParameter.do_update_state]
  by_cases hl : some gen = l <;>
    simp [StatisticalParameter.update_stats, hl]

theorem update_stats_debounce_witness :
    (StatisticalParameter.update_stats
      (⟨none, none⟩ : StatsState ℕ)).2 = true ∧
    (StatisticalParameter.runStats (0 : ℕ)
      [.request, .request, .fire] ⟨none, none⟩).gens = 1 :=
  ⟨(update_stats_debounce (0 : ℕ) ⟨none, none⟩ rfl).1,
   (update_stats_debounce (0 : ℕ) ⟨none, none⟩ rfl).2.2.1⟩

/-- Claim C7: when the timer fires and the generated entries equal the
last published ones, nothing is published and the baseline is unchanged;
when they differ, exactly one publish happens and the entries become the
new baseline. -/
theorem do_update_state_publish :
    ∀ {α : Type} [DecidableEq α] (gen : α) (s : StatsState α),
      (s.last_state = some gen →
        StatisticalParameter.do_update_state gen s = (⟨none, s.last_state⟩, false)) ∧
      (s.last_state ≠ some gen →
        StatisticalParameter.do_update_state gen s = (⟨none, some gen⟩, true)) := by
  intro α _ gen s
  constructor
  · intro h
    simp [StatisticalParameter.do_update_state, h]
  · intro h
    simp [StatisticalParameter.do_update_state]
    exact fun hc => h hc.symm

theorem do_update_state_publish_witness :
    StatisticalParameter.do_update_state (0 : ℕ) ⟨some (), some 0⟩
      = (⟨none, some 0⟩, false) ∧
    StatisticalParameter.do_update_state (1 : ℕ) ⟨some (), some 0⟩
      = (⟨none, some 1⟩, true) :=
  ⟨(do_update_state_publish (0 : ℕ) ⟨some (), some 0⟩).1 rfl,
   (do_update_state_publish (1 : ℕ) ⟨some (), some 0⟩).2 (by decide)⟩

/-- Helper: the loop accumulator of calculate_min_avg_max computes the
two sums, shifted by the starting accumulator. -/
theorem calcSums_shift (l : List StatVal) (a b : ℚ) :
    List.foldl
      (fun acc x =>
        match x with
        | StatVal.wv w => (acc.1 + w.value * w.weight, acc.2 + w.weight)
        | StatVal.raw v => (acc.1 + v, acc.2 + 1))
      (a, b) l
    = (a + specNumerator l, b + specDenominator l) := by
  induction l generalizing a b with
  | nil => simp [specNumerator, specDenominator]
  | cons x xs ih =>
    cases x with
    | raw v =>
      rw [List.foldl_cons, ih]
      simp only [specNumerator, specDenominator, List.map_cons, List.sum_cons]
      exact Prod.ext (by ring) (by ring)
    | wv w =>
      rw [List.foldl_cons, ih]
      simp only [specNumerator, specDenominator, List.map_cons, List.sum_cons]
      exact Prod.ext (by ring) (by ring)

/-- Helper: the loop sums equal the specification sums. -/
theorem calcSums_eq (l : List StatVal) :
    MinAvgMaxParameter.calcSums l = (specNumerator l, specDenominator l) := by
  unfold MinAvgMaxParameter.calcSums
  rw [calcSums_shift]
  simp

/-- Helper: a left fold of min is below its start and every element. -/
theorem foldl_min_le (xs : List ℚ) (a : ℚ) :
    xs.foldl min a ≤ a ∧ ∀ x ∈ xs, xs.foldl min a ≤ x := by
  induction xs generalizing a with
  | nil => simp
  | cons y ys ih =>
    have h := ih (min a y)
    refine ⟨h.1.trans (min_le_left a y), ?_⟩
    intro x hx
    rcases List.mem_cons.mp hx with rfl | hx
    · exact h.1.trans (min_le_right a _)
    · exact h.2 x hx

/-- Helper: a left fold of max is above its start and every element. -/
theorem foldl_max_ge (xs : List ℚ) (a : ℚ) :
    a ≤ xs.foldl max a ∧ ∀ x ∈ xs, x ≤ xs.foldl max a := by
  induction xs generalizing a with
  | nil => simp
  | cons y ys ih =>
    have h := ih (max a y)
    refine ⟨(le_max_left a y).trans h.1, ?_⟩
    intro x hx
    rcases List.mem_cons.mp hx with rfl | hx
    · exact (le_max_right a _).trans h.1
    · exact h.2 x hx

/-- Helper: a left fold of min is the start or one of the elements. -/
theorem foldl_min_mem (xs : List ℚ) (a : ℚ) :
    xs.foldl min a = a ∨ xs.foldl min a ∈ xs := by
  induction xs generalizing a with
  | nil => exact Or.inl rfl
  | cons y ys ih =>
    rcases ih (min a y) with h | h
    · rcases min_choice a y with hc | hc
      · exact Or.inl (by rw [List.foldl_cons, h, hc])
      · exact Or.inr (by rw [List.foldl_cons, h, hc]; exact List.mem_cons_self y ys)
    · exact Or.inr (List.mem_cons_of_mem y h)

/-- Helper: a left fold of max is the start or one of the elements. -/
theorem foldl_max_mem (xs : List ℚ) (a : ℚ) :
    xs.foldl max a = a ∨ xs.foldl max a ∈ xs := by
  induction xs generalizing a with
  | nil => exact Or.inl rfl
  | cons y ys ih =>
    rcases ih (max a y) with h | h
    · rcases max_choice a y with hc | hc
      · exact Or.inl (by rw [List.foldl_cons, h, hc])
      · exact Or.inr (by rw [List.foldl_cons, h, hc]; exact List.mem_cons_self y ys)
    · exact Or.inr (List.mem_cons_of_mem y h)

/-- Claim C8: the min/avg/max calculation yields all zeros on an empty
input; on the concrete example it yields min 2, avg 3.5, max 4; on a
non-empty input with nonzero weight sum it yields the minimum and maximum
of the unweighted values together with the weighted average; the minimum
and maximum are attained values bounding every value; and a zero-weight
entry changes neither the numerator nor the denominator of the average
while its value still enters the min/max candidates. -/
theorem calculate_min_avg_max_spec :
    MinAvgMaxParameter.calculate_min_avg_max [] = some (0, 0, 0) ∧
    MinAvgMaxParameter.calculate_min_avg_max
      [StatVal.wv ⟨2, 1⟩, StatVal.wv ⟨4, 3⟩] = some (2, 7/2, 4) ∧
    (∀ l : List StatVal, l ≠ [] → specDenominator l ≠ 0 →
      MinAvgMaxParameter.calculate_min_avg_max l =
        some (MinAvgMaxParameter.listMin (MinAvgMaxParameter.numericValues l),
              specNumerator l / specDenominator l,
              MinAvgMaxParameter.listMax (MinAvgMaxParameter.numericValues l))) ∧
    (∀ l : List StatVal, l ≠ [] →
      MinAvgMaxParameter.listMin (MinAvgMaxParameter.numericValues l)
        ∈ MinAvgMaxParameter.numericValues l ∧
      MinAvgMaxParameter.listMax (MinAvgMaxParameter.numericValues l)
        ∈ MinAvgMaxParameter.numericValues l ∧
      ∀ x ∈ MinAvgMaxParameter.numericValues l,
        MinAvgMaxParameter.listMin (MinAvgMaxParameter.numericValues l) ≤ x ∧
        x ≤ MinAvgMaxParameter.listMax (MinAvgMaxParameter.numericValues l)) ∧
    (∀ (v : ℚ) (l : List StatVal),
      specNumerator (l ++ [StatVal.wv ⟨v, 0⟩]) = specNumerator l ∧
      specDenominator (l ++ [StatVal.wv ⟨v, 0⟩]) = specDenominator l ∧
      MinAvgMaxParameter.numericValues (l ++ [StatVal.wv ⟨v, 0⟩])
        = MinAvgMaxParameter.numericValues l ++ [v]) := by
  refine ⟨rfl, ?_, ?_, ?_, ?_⟩
  · simp [MinAvgMaxParameter.calculate_min_avg_max,
      MinAvgMaxParameter.numericValues, MinAvgMaxParameter.calcSums,
      MinAvgMaxParameter.listMin, MinAvgMaxParameter.listMax]
    norm_num
  · intro l hne hden
    unfold MinAvgMaxParameter.calculate_min_avg_max
    rw [calcSums_eq]
    simp [hne, hden, List.isEmpty_iff]
  · intro l hne
    have hnv : MinAvgMaxParameter.numericValues l ≠ [] := by
      simpa [MinAvgMaxParameter.numericValues] using hne
    obtain ⟨y, ys, hys⟩ := List.exists_cons_of_ne_nil hnv
    rw [hys]
    refine ⟨?_, ?_, ?_⟩
    · rcases foldl_min_mem ys y with h | h
      · simp [MinAvgMaxParameter.listMin, h]
      · exact List.mem_cons_of_mem y (by simpa [MinAvgMaxParameter.listMin] using h)
    · rcases foldl_max_mem ys y with h | h
      · simp [MinAvgMaxParameter.listMax, h]
      · exact List.mem_cons_of_mem y (by simpa [MinAvgMaxParameter.listMax] using h)
    · intro x hx
      rcases List.mem_cons.mp hx with rfl | hx
      · exact ⟨(foldl_min_le ys x).1, (foldl_max_ge ys x).1⟩
      · exact ⟨(foldl_min_le ys y).2 x hx, (foldl_max_ge ys y).2 x hx⟩
  · intro v l
    refine ⟨?_, ?_, ?_⟩
    · simp [specNumerator]
    · simp [specDenominator]
    · simp [MinAvgMaxParameter.numericValues]

theorem calculate_min_avg_max_spec_witness :
    MinAvgMaxParameter.calculate_min_avg_max [StatVal.raw 5] =
      some (MinAvgMaxParameter.listMin
              (MinAvgMaxParameter.numericValues [StatVal.raw 5]),
            specNumerator [StatVal.raw 5] / specDenominator [StatVal.raw 5],
            MinAvgMaxParameter.listMax
              (MinAvgMaxParameter.numericValues [StatVal.raw 5])) :=
  calculate_min_avg_max_spec.2.2.1 [StatVal.raw 5]
    (by simp) (by norm_num [specDenominator])

/-- Claim C10: a non-empty input consisting only of weighted values of
weight zero makes the weight sum zero, so the average computation divides
by zero and the call fails instead of returning a result. -/
theorem calc_zero_weights_div_by_zero :
    ∀ l : List StatVal, l ≠ [] →
      (∀ x ∈ l, ∃ v : ℚ, x = StatVal.wv ⟨v, 0⟩) →
      MinAvgMaxParameter.calculate_min_avg_max l = none := by
  intro l hne hzw
  have hden : specDenominator l = 0 := by
    apply List.sum_eq_zero
    intro x hx
    rcases List.mem_map.mp hx with ⟨a, ha, rfl⟩
    obtain ⟨v, rfl⟩ := hzw a ha
    rfl
  unfold MinAvgMaxParameter.calculate_min_avg_max
  rw [calcSums_eq]
  simp [hne, hden, List.isEmpty_iff]

theorem calc_zero_weights_div_by_zero_witness :
    MinAvgMaxParameter.calculate_min_avg_max [StatVal.wv ⟨5, 0⟩] = none :=
  calc_zero_weights_div_by_zero [StatVal.wv ⟨5, 0⟩] (by simp)
    (fun x hx => by
      rcases List.mem_singleton.mp hx with rfl
      exact ⟨5, rfl⟩)
